import Mathlib

/-!
Verification development for the gmail-slack-bot repository.

Shallow embedding of the stateful core described in the repository spec:
the per-user conversation Memory Store and history trimming
(`src/gmail-assistant.ts`), the thread Session Registry (`src/index.ts`),
the tool dispatcher `executeTool` (`src/gmail-assistant.ts`), the agentic
loop of `processNaturalLanguageRequest`, and the Slack rendering helpers
(`src/gmail-client.ts`).

Modelling conventions:
* JS strings are Lean `String`s; `s.length` is the character count.
* Optional / possibly-`undefined` values are `Option`s; JS truthiness of a
  string value (`undefined`, `null` and `""` are falsy) is modelled
  explicitly at each use site.
* Timestamps (`Date.now()`) are `Nat` milliseconds.  `now - last > T` with
  JS numbers and `Nat` truncated subtraction agree whenever they are
  compared against a nonnegative bound, because a negative JS difference
  and a truncated-to-0 Nat difference both fail the `> T` test.
* The remote Mailbox Service calls of `gmail-client.ts` are abstracted as
  an oracle (`MailboxService`) whose functions return the success/failure
  values described by the client code; a JS runtime `TypeError`
  (property access on `undefined`) is an `Except.error`.
* JS `Array.prototype.join(sep)` is `jsJoin sep`.
-/

namespace GmailBot

/-- `Array.prototype.join` / `String.prototype` semantics of `lines.join(sep)`. -/
def jsJoin (sep : String) : List String → String
  | [] => ""
  | [s] => s
  | s :: rest => s ++ sep ++ jsJoin sep rest

/-- JS string rendering of a possibly-`undefined` string (template literals
render `undefined` as the text `"undefined"`). -/
def jsStr : Option String → String
  | some s => s
  | none => "undefined"

/-- JS `x || d` for an optional integer argument: `undefined` and `0` are
falsy and give the default; every other integer passes through. -/
def jsOrDefault (x : Option Int) (d : Int) : Int :=
  match x with
  | none => d
  | some v => if v = 0 then d else v

/-- JS `x || d` for an optional string: `undefined` and `""` are falsy. -/
def jsOrStr (x : Option String) (d : String) : String :=
  match x with
  | none => d
  | some s => if s = "" then d else s

/-- The `EmailMessage` interface of `src/gmail-client.ts`. -/
structure EmailMessage where
  id : String
  threadId : String
  subject : String
  «from» : String
  «to» : String
  date : String
  snippet : String
  body : Option String
  labels : List String
deriving DecidableEq, Repr

/-- `formatEmailForSlack` of `src/gmail-client.ts` (lines 104-122): four
labeled lines, then either the (truncated) body when `includeBody` holds and
`email.body` is JS-truthy, or the snippet line. -/
def formatEmailForSlack (email : EmailMessage) (includeBody : Bool) : String :=
  let lines := [
    "*Subject:* " ++ email.subject,
    "*From:* " ++ email.«from»,
    "*Date:* " ++ email.date,
    "*ID:* `" ++ email.id ++ "`"]
  let lines :=
    match includeBody, email.body with
    | true, some b =>
        if b ≠ "" then
          let truncatedBody := if b.length > 500 then b.take 500 ++ "..." else b
          lines ++ ["\n>>> " ++ truncatedBody]
        else
          lines ++ ["\n_" ++ email.snippet ++ "_"]
    | _, _ => lines ++ ["\n_" ++ email.snippet ++ "_"]
  jsJoin "\n" lines

/-- `formatEmailListForSlack` of `src/gmail-client.ts` (lines 124-137):
`"No emails found."` for the empty list, otherwise numbered blocks joined by
a blank line. -/
def formatEmailListForSlack (emails : List EmailMessage) : String :=
  if emails.length = 0 then
    "No emails found."
  else
    jsJoin "\n\n" (emails.mapIdx fun i email =>
      jsJoin "\n" [
        "*" ++ toString (i + 1) ++ ". " ++ email.subject ++ "*",
        "   From: " ++ email.«from»,
        "   Date: " ++ email.date,
        "   ID: `" ++ email.id ++ "`"])

/-- A Gmail label as returned by `getLabels` (`src/gmail-client.ts`). -/
structure Label where
  id : String
  name : String
  type : String
deriving DecidableEq, Repr

/-- The `{id, name}` value returned by `createLabel`. -/
structure LabelRef where
  id : String
  name : String
deriving DecidableEq, Repr

/-- The `MarketingEmail` interface of `src/gmail-client.ts`. -/
structure MarketingEmail extends EmailMessage where
  unsubscribeLinks : List String
  unsubscribeEmail : Option String
  hasUnsubscribe : Bool
deriving DecidableEq, Repr

/-- The `email` sub-object of `UnsubscribeInfo`. -/
structure UnsubEmailRef where
  id : String
  subject : String
  «from» : String
deriving DecidableEq, Repr

/-- The `UnsubscribeInfo` interface of `src/gmail-client.ts`. -/
structure UnsubscribeInfo where
  email : UnsubEmailRef
  unsubscribeLinks : List String
  unsubscribeEmail : Option String
  hasUnsubscribe : Bool
deriving DecidableEq, Repr

/-- The `{success, error?}` value returned by `sendEmail`. -/
structure SendResult where
  success : Bool
  error : Option String
deriving DecidableEq, Repr

/-- One invocation of a Mailbox Service capability, recording the arguments
the dispatcher passed to `gmail-client.ts`.  Arguments that the dispatcher
forwards unchecked (and that may therefore be `undefined`) are `Option`s. -/
inductive SvcCall where
  | searchEmails (query : Option String) (maxResults : Int)
  | listEmails (maxResults : Int)
  | getEmail (messageId : Option String)
  | sendEmail («to» : List (Option String)) (subject body : Option String)
  | markAsRead (messageId : Option String)
  | trashEmail (messageId : Option String)
  | createLabel (name : Option String)
  | deleteLabel (labelId : Option String)
  | getLabels
  | starEmail (messageId : Option String)
  | unstarEmail (messageId : Option String)
  | archiveEmail (messageId : Option String)
  | batchModifyEmails (messageIds : Option (List String))
      (addLabelIds : Option (List (Option String))) (removeLabelIds : Option (List String))
  | findMarketingEmails (maxResults : Int)
  | getUnsubscribeInfo (messageId : Option String)
deriving DecidableEq, Repr

/-- Oracle for the Mailbox Service (`src/gmail-client.ts`): each capability is
a pure function giving the success/failure value the remote call resolves to,
per the claims' modelling of service calls as returning their values. -/
structure MailboxService where
  searchEmails : Option String → Int → List EmailMessage
  listEmails : Int → List EmailMessage
  getEmail : Option String → Option EmailMessage
  sendEmail : List (Option String) → Option String → Option String → SendResult
  markAsRead : Option String → Bool
  trashEmail : Option String → Bool
  createLabel : Option String → Option LabelRef
  deleteLabel : Option String → Bool
  getLabels : List Label
  starEmail : Option String → Bool
  unstarEmail : Option String → Bool
  archiveEmail : Option String → Bool
  batchModifyEmails : Option (List String) → Option (List (Option String)) →
      Option (List String) → Bool
  findMarketingEmails : Int → List MarketingEmail
  getUnsubscribeInfo : Option String → Option UnsubscribeInfo

/-- The argument mapping handed to `executeTool` (`input: Record<string,
unknown>`), restricted to the fields the dispatcher reads; an absent field is
`none` (JS `undefined`). -/
structure ToolInput where
  query : Option String := none
  maxResults : Option Int := none
  count : Option Int := none
  messageId : Option String := none
  «to» : Option String := none
  subject : Option String := none
  body : Option String := none
  name : Option String := none
  labelId : Option String := none
  messageIds : Option (List String) := none
deriving DecidableEq, Repr

/-- The runtime error message used for a JS `TypeError` raised by a property
access on `undefined`. -/
def typeErrorUndefinedLength : String := "TypeError: cannot read length of undefined"

/-- `executeTool` of `src/gmail-assistant.ts` (lines 359-551).  Returns the
result of the `switch` — `Except.ok` for every `return`ed string and
`Except.error` for a raised JS `TypeError` — together with the list of
Mailbox Service calls the case performed. -/
def executeTool (name : String) (input : ToolInput) (svc : MailboxService) :
    Except String String × List SvcCall :=
  if name = "search_emails" then
    let maxResults := min (jsOrDefault input.maxResults 5) 10
    let emails := svc.searchEmails input.query maxResults
    let res : Except String String :=
      if emails.length = 0 then .ok "No emails found matching your search."
      else .ok (formatEmailListForSlack emails)
    (res, [SvcCall.searchEmails input.query maxResults])
  else if name = "list_recent_emails" then
    let count := min (jsOrDefault input.count 5) 10
    let emails := svc.listEmails count
    let res : Except String String :=
      if emails.length = 0 then .ok "No emails found."
      else .ok (formatEmailListForSlack emails)
    (res, [SvcCall.listEmails count])
  else if name = "get_email_details" then
    let res : Except String String :=
      match svc.getEmail input.messageId with
      | none => .ok ("Email not found with ID: " ++ jsStr input.messageId)
      | some email => .ok (formatEmailForSlack email true)
    (res, [SvcCall.getEmail input.messageId])
  else if name = "send_email" then
    let result := svc.sendEmail [input.«to»] input.subject input.body
    let res : Except String String :=
      if result.success then .ok ("✅ Email sent successfully to " ++ jsStr input.«to»)
      else .ok ("❌ Failed to send email: " ++ jsOrStr result.error "Unknown error")
    (res, [SvcCall.sendEmail [input.«to»] input.subject input.body])
  else if name = "mark_as_read" then
    let res : Except String String :=
      if svc.markAsRead input.messageId then
        .ok ("✅ Email marked as read: " ++ jsStr input.messageId)
      else .ok "❌ Failed to mark email as read"
    (res, [SvcCall.markAsRead input.messageId])
  else if name = "trash_email" then
    let res : Except String String :=
      if svc.trashEmail input.messageId then
        .ok ("🗑️ Email moved to trash: " ++ jsStr input.messageId)
      else .ok "❌ Failed to trash email"
    (res, [SvcCall.trashEmail input.messageId])
  else if name = "create_label" then
    let res : Except String String :=
      match svc.createLabel input.name with
      | some label => .ok ("✅ Label created: \"" ++ jsStr input.name ++ "\" (ID: " ++ label.id ++ ")")
      | none => .ok "❌ Failed to create label"
    (res, [SvcCall.createLabel input.name])
  else if name = "delete_label" then
    let res : Except String String :=
      if svc.deleteLabel input.labelId then .ok "✅ Label deleted"
      else .ok "❌ Failed to delete label"
    (res, [SvcCall.deleteLabel input.labelId])
  else if name = "get_labels" then
    let labels := svc.getLabels
    let res : Except String String :=
      if labels.length = 0 then .ok "No labels found."
      else
        let userLabels := labels.filter fun l => l.type == "user"
        let systemLabels := labels.filter fun l => l.type == "system"
        let result := "*Your Labels:*\n" ++
          (if userLabels.length > 0 then
            jsJoin "\n" (userLabels.map fun l => "• " ++ l.name ++ " (ID: `" ++ l.id ++ "`)")
          else "_No custom labels_")
        let result := result ++ "\n\n*System Labels:*\n" ++
          jsJoin "\n" ((systemLabels.take 10).map fun l => "• " ++ l.name)
        .ok result
    (res, [SvcCall.getLabels])
  else if name = "star_email" then
    let res : Except String String :=
      if svc.starEmail input.messageId then
        .ok ("⭐ Email starred: " ++ jsStr input.messageId)
      else .ok "❌ Failed to star email"
    (res, [SvcCall.starEmail input.messageId])
  else if name = "unstar_email" then
    let res : Except String String :=
      if svc.unstarEmail input.messageId then
        .ok ("✅ Star removed from email: " ++ jsStr input.messageId)
      else .ok "❌ Failed to unstar email"
    (res, [SvcCall.unstarEmail input.messageId])
  else if name = "archive_email" then
    let res : Except String String :=
      if svc.archiveEmail input.messageId then
        .ok ("📁 Email archived: " ++ jsStr input.messageId)
      else .ok "❌ Failed to archive email"
    (res, [SvcCall.archiveEmail input.messageId])
  else if name = "batch_star_emails" then
    let messageIds := input.messageIds
    let success := svc.batchModifyEmails messageIds (some [some "STARRED"]) none
    let res : Except String String :=
      if success then
        match messageIds with
        | some ids => .ok ("⭐ Starred " ++ toString ids.length ++ " emails")
        | none => .error typeErrorUndefinedLength
      else .ok "❌ Failed to star emails"
    (res, [SvcCall.batchModifyEmails messageIds (some [some "STARRED"]) none])
  else if name = "batch_apply_label" then
    let messageIds := input.messageIds
    let labelId := input.labelId
    let success := svc.batchModifyEmails messageIds (some [labelId]) none
    let res : Except String String :=
      if success then
        match messageIds with
        | some ids => .ok ("✅ Applied label to " ++ toString ids.length ++ " emails")
        | none => .error typeErrorUndefinedLength
      else .ok "❌ Failed to apply label"
    (res, [SvcCall.batchModifyEmails messageIds (some [labelId]) none])
  else if name = "find_marketing_emails" then
    let maxResults := jsOrDefault input.maxResults 10
    let emails := svc.findMarketingEmails maxResults
    let res : Except String String :=
      if emails.length = 0 then .ok "No marketing emails found."
      else
        let header := "*Found " ++ toString emails.length ++ " marketing/promotional emails:*\n\n"
        .ok (emails.foldl (fun result email =>
          let result := result ++ "*" ++ email.subject ++ "*\n" ++
            "From: " ++ email.«from» ++ "\n" ++ "ID: `" ++ email.id ++ "`\n"
          let result :=
            if email.hasUnsubscribe then
              if email.unsubscribeLinks.length > 0 then
                result ++ "🔗 Unsubscribe: " ++ email.unsubscribeLinks.headD "" ++ "\n"
              else
                match email.unsubscribeEmail with
                | some e => if e = "" then result
                    else result ++ "📧 Unsubscribe email: " ++ e ++ "\n"
                | none => result
            else result ++ "⚠️ No unsubscribe link found\n"
          result ++ "\n") header)
    (res, [SvcCall.findMarketingEmails maxResults])
  else if name = "get_unsubscribe_info" then
    let res : Except String String :=
      match svc.getUnsubscribeInfo input.messageId with
      | none => .ok ("❌ Could not get unsubscribe info for email: " ++ jsStr input.messageId)
      | some info =>
        let result := "*Unsubscribe Info for:* " ++ info.email.subject ++ "\n" ++
          "*From:* " ++ info.email.«from» ++ "\n\n"
        let result :=
          if info.hasUnsubscribe then
            let result :=
              if info.unsubscribeLinks.length > 0 then
                result ++ "*Unsubscribe Links:*\n" ++
                  String.join (info.unsubscribeLinks.map fun link => "• " ++ link ++ "\n")
              else result
            match info.unsubscribeEmail with
            | some e => if e = "" then result else result ++ "\n*Unsubscribe Email:* " ++ e
            | none => result
          else result ++ "⚠️ No unsubscribe option found in this email."
        .ok result
    (res, [SvcCall.getUnsubscribeInfo input.messageId])
  else
    (.ok ("Unknown tool: " ++ name), [])

/-- The 16 tool names of the catalog in `src/gmail-assistant.ts`. -/
def knownToolNames : List String :=
  ["search_emails", "list_recent_emails", "get_email_details", "send_email",
   "mark_as_read", "trash_email", "create_label", "delete_label", "get_labels",
   "star_email", "unstar_email", "archive_email", "batch_star_emails",
   "batch_apply_label", "find_marketing_emails", "get_unsubscribe_info"]

/-! ## Conversation memory store (`src/gmail-assistant.ts`, lines 30-76) -/

/-- Role of a history entry (`Anthropic.MessageParam.role`). -/
inductive Role where
  | user
  | assistant
deriving DecidableEq, Repr

/-- A content block of a model response / message
(`Anthropic.ContentBlockParam`), restricted to the kinds the core reads. -/
inductive Block where
  | text (s : String)
  | toolUse (id : String) (name : String) (input : ToolInput)
  | toolResult (toolUseId : String) (content : String)
deriving DecidableEq, Repr

/-- Content of a history entry: either a plain string or a block list
(`MessageParam.content`). -/
inductive MsgContent where
  | ofText (s : String)
  | ofBlocks (bs : List Block)
deriving DecidableEq, Repr

/-- One `Anthropic.MessageParam` entry. -/
structure Message where
  role : Role
  content : MsgContent
deriving DecidableEq, Repr

/-- `ConversationState` of `src/gmail-assistant.ts`. -/
structure ConversationState where
  messages : List Message
  lastActivity : Nat
  context : String
deriving DecidableEq, Repr

/-- The `conversationMemory` map: an association list keyed by Slack user id,
in insertion order, as a JS `Map`. -/
abbrev Memory := List (String × ConversationState)

/-- `MEMORY_TIMEOUT_MS = 30 * 60 * 1000`. -/
def MEMORY_TIMEOUT_MS : Nat := 30 * 60 * 1000

/-- `MAX_HISTORY_MESSAGES = 20`. -/
def MAX_HISTORY_MESSAGES : Nat := 20

/-- `Map.get` on an association list. -/
def memLookup (m : Memory) (userId : String) : Option ConversationState :=
  (m.find? fun p => p.1 == userId).map (·.2)

/-- `Map.set`: replace in place when the key exists, else append. -/
def memSet (m : Memory) (userId : String) (st : ConversationState) : Memory :=
  if m.any (fun p => p.1 == userId) then
    m.map fun p => if p.1 == userId then (userId, st) else p
  else
    m ++ [(userId, st)]

/-- `Map.delete`. -/
def memDelete (m : Memory) (userId : String) : Memory :=
  m.filter fun p => !(p.1 == userId)

/-- `cleanupOldConversations` (lines 47-54): drop every state whose
`lastActivity` is more than `MEMORY_TIMEOUT_MS` before `now`. -/
def cleanupOldConversations (now : Nat) (m : Memory) : Memory :=
  m.filter fun p => !(decide (now - p.2.lastActivity > MEMORY_TIMEOUT_MS))

/-- `getConversationState` (lines 57-71): sweep, create an empty state when
absent, touch `lastActivity`, and return the state together with the updated
store. -/
def getConversationState (userId : String) (now : Nat) (m : Memory) :
    ConversationState × Memory :=
  let m1 := cleanupOldConversations now m
  let m2 := if (memLookup m1 userId).isSome then m1
            else memSet m1 userId { messages := [], lastActivity := now, context := "" }
  let state := (memLookup m2 userId).getD { messages := [], lastActivity := now, context := "" }
  let state := { state with lastActivity := now }
  (state, memSet m2 userId state)

/-- `clearConversation` (lines 74-76) acting on the memory map alone. -/
def clearConversationMem (userId : String) (m : Memory) : Memory :=
  memDelete m userId

/-! ## Thread session registry (`src/index.ts`, lines 22-87) -/

/-- `ThreadSession` of `src/index.ts`. -/
structure ThreadSession where
  userId : String
  channelId : String
  threadTs : String
  lastActivity : Nat
deriving DecidableEq, Repr

/-- The `activeSessions` map keyed by `"channelId:threadTs"`. -/
abbrev Sessions := List (String × ThreadSession)

/-- `SESSION_TIMEOUT_MS = 30 * 60 * 1000`. -/
def SESSION_TIMEOUT_MS : Nat := 30 * 60 * 1000

/-- `getSessionKey` (lines 39-41). -/
def getSessionKey (channelId threadTs : String) : String :=
  channelId ++ ":" ++ threadTs

/-- `Map.get` on the session registry. -/
def sesLookup (s : Sessions) (key : String) : Option ThreadSession :=
  (s.find? fun p => p.1 == key).map (·.2)

/-- `Map.delete` on the session registry. -/
def sesDelete (s : Sessions) (key : String) : Sessions :=
  s.filter fun p => !(p.1 == key)

/-- The two process-wide stores of the bot, shared by `src/index.ts` and
`src/gmail-assistant.ts`. -/
structure BotState where
  activeSessions : Sessions
  conversationMemory : Memory
deriving DecidableEq, Repr

/-- `clearConversation` viewed on the combined state: it touches only the
memory map. -/
def clearConversation (userId : String) (st : BotState) : BotState :=
  { st with conversationMemory := clearConversationMem userId st.conversationMemory }

/-- `endSession` (`src/index.ts`, lines 78-87): when a session exists for the
key, clear its user's conversation, remove the session, and return `true`;
otherwise return `false` and leave everything unchanged. -/
def endSession (channelId threadTs : String) (st : BotState) : Bool × BotState :=
  let key := getSessionKey channelId threadTs
  match sesLookup st.activeSessions key with
  | some session =>
      let st := clearConversation session.userId st
      (true, { st with activeSessions := sesDelete st.activeSessions key })
  | none => (false, st)

/-- Loop body of `cleanupExpiredSessions` (`src/index.ts`, lines 43-51) for
one registry entry. -/
def sweepStep (now : Nat) (acc : BotState) (p : String × ThreadSession) : BotState :=
  if now - p.2.lastActivity > SESSION_TIMEOUT_MS then
    let acc := { acc with activeSessions := sesDelete acc.activeSessions p.1 }
    clearConversation p.2.userId acc
  else acc

/-- `cleanupExpiredSessions` (`src/index.ts`, lines 43-51): sweep every entry
of the registry, deleting expired sessions and clearing their users'
conversations. -/
def cleanupExpiredSessions (now : Nat) (st : BotState) : BotState :=
  st.activeSessions.foldl (sweepStep now) st

/-! ## History trimming and the agentic loop
(`src/gmail-assistant.ts`, lines 645-713) -/

/-- Body of the trim loop: one `shift()` per iteration while the length
exceeds the bound, with enough fuel to run to completion. -/
def trimHistoryGo : Nat → List Message → List Message
  | 0, l => l
  | fuel + 1, l =>
      if l.length > MAX_HISTORY_MESSAGES then trimHistoryGo fuel l.tail else l

/-- The trim loop `while (state.messages.length > MAX_HISTORY_MESSAGES)
state.messages.shift()` (lines 649-651 and 708-710).  Each iteration removes
one element, so `l.length` iterations always suffice. -/
def trimHistory (l : List Message) : List Message :=
  trimHistoryGo l.length l

/-- One history append (`state.messages.push(...)`) immediately followed by
the trim loop, as performed for both the user turn and the assistant turn. -/
def appendAndTrim (h : List Message) (m : Message) : List Message :=
  trimHistory (h ++ [m])

/-- A history entry `{ role: 'user', content: <text> }`. -/
def userTextMsg (s : String) : Message :=
  { role := Role.user, content := MsgContent.ofText s }

/-- A history entry `{ role: 'assistant', content: <text> }`. -/
def assistantTextMsg (s : String) : Message :=
  { role := Role.assistant, content := MsgContent.ofText s }

/-- One model response (`anthropic.messages.create` resolution): the stop
reason string and the content blocks. -/
structure Response where
  stop_reason : String
  content : List Block
deriving DecidableEq, Repr

/-- The text of a `text` content block, for the filter on line 697-699. -/
def blockText? : Block → Option String
  | Block.text s => some s
  | _ => none

/-- The `(id, name, input)` of a `tool_use` content block, for the filter on
lines 666-669. -/
def blockToolUse? : Block → Option (String × String × ToolInput)
  | Block.toolUse id name input => some (id, name, input)
  | _ => none

/-- The fixed fallback answer of line 701. -/
def fallbackText : String := "I processed your request but have no response to show."

/-- The `while (response.stop_reason === 'tool_use')` loop (lines 665-694)
followed by the final text extraction (lines 697-701).  The model is
represented by the current response `resp` plus the stream `rest` of
responses that later `create` calls resolve to; `calls` and `toolCount`
count model calls made and tools executed so far.  Returns `none` when the
turn aborts abnormally (a model call has no response to resolve to, or a
tool execution raises), mirroring an exception propagating out. -/
def runLoop (svc : MailboxService) (working : List Message) (resp : Response)
    (rest : List Response) (calls toolCount : Nat) : Option (String × Nat × Nat) :=
  if resp.stop_reason = "tool_use" then
    let toolUses := resp.content.filterMap blockToolUse?
    let execs := toolUses.map fun tu => (tu.1, (executeTool tu.2.1 tu.2.2 svc).1)
    if execs.all (fun e => e.2.isOk) then
      let toolResults := execs.map fun e => Block.toolResult e.1 (e.2.toOption.getD "")
      let working := working ++
        [{ role := Role.assistant, content := MsgContent.ofBlocks resp.content },
         { role := Role.user, content := MsgContent.ofBlocks toolResults }]
      match rest with
      | [] => none
      | r :: rs => runLoop svc working r rs (calls + 1) (toolCount + toolUses.length)
    else none
  else
    let texts := resp.content.filterMap blockText?
    let joined := jsJoin "\n" texts
    some (if joined = "" then fallbackText else joined, calls, toolCount)

/-- Outcome of one completed turn of `processNaturalLanguageRequest`. -/
structure TurnResult where
  finalText : String
  newHistory : List Message
  modelCalls : Nat
  toolInvocations : Nat
deriving DecidableEq, Repr

/-- The per-turn core of `processNaturalLanguageRequest`
(`src/gmail-assistant.ts`, lines 645-713), acting on the user's persisted
history: append the user turn and trim (lines 645-651), copy the history
into the working list and run the agentic loop (lines 654-701), then append
only the distilled assistant text and trim again (lines 703-710).
`responses` is the stream of model responses; `none` means the turn did not
complete (a model/tool failure propagated). -/
def processTurn (svc : MailboxService) (history : List Message)
    (userRequest : String) (responses : List Response) : Option TurnResult :=
  let h1 := appendAndTrim history (userTextMsg userRequest)
  match responses with
  | [] => none
  | r :: rest =>
    match runLoop svc h1 r rest 1 0 with
    | none => none
    | some (finalResponse, calls, toolCount) =>
      some { finalText := finalResponse,
             newHistory := appendAndTrim h1 (assistantTextMsg finalResponse),
             modelCalls := calls,
             toolInvocations := toolCount }

/-! ## Concrete fixtures used to instantiate the theorems -/

/-- A Mailbox Service oracle whose calls all succeed with empty data. -/
def svcAllOk : MailboxService where
  searchEmails := fun _ _ => []
  listEmails := fun _ => []
  getEmail := fun _ => none
  sendEmail := fun _ _ _ => { success := true, error := none }
  markAsRead := fun _ => true
  trashEmail := fun _ => true
  createLabel := fun _ => some { id := "Label_1", name := "lbl" }
  deleteLabel := fun _ => true
  getLabels := []
  starEmail := fun _ => true
  unstarEmail := fun _ => true
  archiveEmail := fun _ => true
  batchModifyEmails := fun _ _ _ => true
  findMarketingEmails := fun _ => []
  getUnsubscribeInfo := fun _ => none

/-- An email whose optional body is the empty string. -/
def emptyBodyEmail : EmailMessage where
  id := "id9"
  threadId := "t9"
  subject := "S"
  «from» := "F"
  «to» := "T"
  date := "D"
  snippet := "snip"
  body := some ""
  labels := []

/-- A model response requesting one tool call. -/
def respToolUse1 : Response where
  stop_reason := "tool_use"
  content := [Block.toolUse "tu1" "search_emails" { query := some "is:unread" }]

/-- A second model response requesting one more tool call. -/
def respToolUse2 : Response where
  stop_reason := "tool_use"
  content := [Block.toolUse "tu2" "mark_as_read" { messageId := some "id1" }]

/-- A final model response carrying only text. -/
def respFinal : Response where
  stop_reason := "end_turn"
  content := [Block.text "Done."]

/-- A one-user memory store whose single state was last active at time 0. -/
def memOneIdle : Memory := [("u1", { messages := [], lastActivity := 0, context := "" })]

/-- A one-user memory store holding one history entry, last active at 1. -/
def memOneFresh : Memory :=
  [("u1", { messages := [userTextMsg "hi"], lastActivity := 1, context := "" })]

/-- A combined state with one active session for user `u1` (last active at
time 0) and a conversation state for the same user. -/
def botOneSession : BotState where
  activeSessions :=
    [("C:T", { userId := "u1", channelId := "C", threadTs := "T", lastActivity := 0 })]
  conversationMemory := memOneIdle

/-! ## Generic list and trimming lemmas -/

theorem trimHistoryGo_eq_drop (fuel : Nat) :
    ∀ l : List Message, l.length ≤ fuel →
      trimHistoryGo fuel l = l.drop (l.length - MAX_HISTORY_MESSAGES) := by
  induction fuel with
  | zero =>
      intro l h
      have hl : l = [] := List.length_eq_zero.mp (Nat.le_zero.mp h)
      subst hl
      simp [trimHistoryGo]
  | succ n ih =>
      intro l h
      by_cases hl : l.length > MAX_HISTORY_MESSAGES
      · rw [trimHistoryGo, if_pos hl]
        cases l with
        | nil => simp at hl
        | cons a as =>
            have htail : as.length ≤ n := by
              simp only [List.length_cons] at h
              omega
            rw [List.tail_cons, ih as htail]
            have hk : as.length + 1 - MAX_HISTORY_MESSAGES =
                (as.length - MAX_HISTORY_MESSAGES) + 1 := by
              simp only [List.length_cons] at hl
              omega
            simp only [List.length_cons, hk, List.drop_succ_cons]
      · rw [trimHistoryGo, if_neg hl]
        have hz : l.length - MAX_HISTORY_MESSAGES = 0 := by omega
        rw [hz, List.drop_zero]

theorem trimHistory_eq_drop (l : List Message) :
    trimHistory l = l.drop (l.length - MAX_HISTORY_MESSAGES) :=
  trimHistoryGo_eq_drop l.length l le_rfl

theorem drop_last_append {α : Type _} (xs : List α) (m : α) (n : Nat) (hn : 0 < n) :
    (xs.drop (xs.length - n) ++ [m]).drop ((xs.drop (xs.length - n) ++ [m]).length - n)
      = (xs ++ [m]).drop ((xs ++ [m]).length - n) := by
  by_cases h : xs.length ≤ n
  · have hz : xs.length - n = 0 := by omega
    simp [hz]
  · have hlen : (xs.drop (xs.length - n)).length = n := by
      simp only [List.length_drop]
      omega
    have h1 : (xs.drop (xs.length - n) ++ [m]).length - n = 1 := by
      simp only [List.length_append, List.length_singleton, hlen]
      omega
    have h2 : (xs ++ [m]).length - n = (xs.length - n) + 1 := by
      simp only [List.length_append, List.length_singleton]
      omega
    rw [h1, h2, List.drop_append_eq_append_drop, List.drop_append_eq_append_drop]
    rw [List.drop_drop]
    have e1 : 1 - (xs.drop (xs.length - n)).length = 0 := by omega
    have e2 : xs.length - n + 1 - xs.length = 0 := by omega
    rw [e1, e2]

/-- **C1.** History bound and FIFO retention: starting from the empty history
of a freshly created `ConversationState`, after any sequence of appends
(each `push` immediately followed by the `while`-`shift` trim loop, exactly
as both the user-turn append and the assistant-turn append of
`processNaturalLanguageRequest` perform it), the history holds at most
`MAX_HISTORY_MESSAGES = 20` entries, and those entries are exactly the most
recent appended ones in their original relative order — the oldest are
evicted first.  Quantifying over every sequence `ms` also settles the state
after each intermediate append, since every prefix is itself a sequence. -/
theorem history_bound_fifo (ms : List Message) :
    (ms.foldl appendAndTrim []).length ≤ MAX_HISTORY_MESSAGES ∧
    ms.foldl appendAndTrim [] = ms.drop (ms.length - MAX_HISTORY_MESSAGES) := by
  have key : ms.foldl appendAndTrim [] = ms.drop (ms.length - MAX_HISTORY_MESSAGES) := by
    induction ms using List.reverseRecOn with
    | nil => simp
    | append_singleton xs m ih =>
        rw [List.foldl_append, List.foldl_cons, List.foldl_nil, ih]
        show appendAndTrim _ m = _
        rw [appendAndTrim, trimHistory_eq_drop]
        exact drop_last_append xs m MAX_HISTORY_MESSAGES (by norm_num [MAX_HISTORY_MESSAGES])
  refine ⟨?_, key⟩
  rw [key]
  simp only [List.length_drop]
  omega

/-! ## Association-list (JS `Map`) lemmas -/

theorem find?_key_eq_none {β : Type _} (m : List (String × β)) (uid : String)
    (h : ∀ p ∈ m, p.1 ≠ uid) : m.find? (fun p => p.1 == uid) = none := by
  rw [List.find?_eq_none]
  intro p hp
  simp [h p hp]

theorem find?_key_filter_of_none {β : Type _} (f : String × β → Bool)
    (m : List (String × β)) (uid : String)
    (h : m.find? (fun p => p.1 == uid) = none) :
    (m.filter f).find? (fun p => p.1 == uid) = none := by
  rw [List.find?_eq_none] at h ⊢
  intro p hp
  exact h p (List.mem_of_mem_filter hp)

theorem find?_key_filter_some (f : String × β → Bool) :
    ∀ (m : List (String × β)) (uid : String) (q : String × β),
      (m.map Prod.fst).Nodup →
      m.find? (fun p => p.1 == uid) = some q → f q = true →
      (m.filter f).find? (fun p => p.1 == uid) = some q := by
  intro m
  induction m with
  | nil => intro uid q _ hf; simp at hf
  | cons a as ih =>
      intro uid q hnd hf hq
      rw [List.map_cons, List.nodup_cons] at hnd
      by_cases ha : a.1 = uid
      · rw [List.find?_cons_of_pos _ (by simp [ha])] at hf
        obtain rfl : a = q := by injection hf
        rw [List.filter_cons_of_pos hq, List.find?_cons_of_pos _ (by simp [ha])]
      · rw [List.find?_cons_of_neg _ (by simp [ha])] at hf
        by_cases hfa : f a = true
        · rw [List.filter_cons_of_pos hfa, List.find?_cons_of_neg _ (by simp [ha])]
          exact ih uid q hnd.2 hf hq
        · rw [List.filter_cons_of_neg (by simpa using hfa)]
          exact ih uid q hnd.2 hf hq

theorem find?_key_filter_none (f : String × β → Bool) :
    ∀ (m : List (String × β)) (uid : String) (q : String × β),
      (m.map Prod.fst).Nodup →
      m.find? (fun p => p.1 == uid) = some q → f q = false →
      (m.filter f).find? (fun p => p.1 == uid) = none := by
  intro m
  induction m with
  | nil => intro uid q _ hf; simp at hf
  | cons a as ih =>
      intro uid q hnd hf hq
      rw [List.map_cons, List.nodup_cons] at hnd
      by_cases ha : a.1 = uid
      · rw [List.find?_cons_of_pos _ (by simp [ha])] at hf
        obtain rfl : a = q := by injection hf
        rw [List.filter_cons_of_neg (by simpa using hq)]
        apply find?_key_filter_of_none
        apply find?_key_eq_none
        intro p hp hpk
        exact hnd.1 (ha ▸ hpk ▸ List.mem_map_of_mem Prod.fst hp)
      · rw [List.find?_cons_of_neg _ (by simp [ha])] at hf
        by_cases hfa : f a = true
        · rw [List.filter_cons_of_pos hfa, List.find?_cons_of_neg _ (by simp [ha])]
          exact ih uid q hnd.2 hf hq
        · rw [List.filter_cons_of_neg (by simpa using hfa)]
          exact ih uid q hnd.2 hf hq

theorem memLookup_memSet_self (m : Memory) (uid : String) (v : ConversationState) :
    memLookup (memSet m uid v) uid = some v := by
  induction m with
  | nil => simp [memSet, memLookup]
  | cons a as ih =>
      by_cases ha : a.1 = uid
      · have hany : (a :: as).any (fun p => p.1 == uid) = true := by
          simp [List.any_cons, ha]
        rw [memSet, if_pos hany, List.map_cons]
        rw [if_pos (by simp [ha])]
        simp [memLookup]
      · by_cases hany : as.any (fun p => p.1 == uid) = true
        · have hany' : (a :: as).any (fun p => p.1 == uid) = true := by
            simp [List.any_cons, hany]
          rw [memSet, if_pos hany', List.map_cons, if_neg (by simp [ha])]
          have : memSet as uid v = as.map fun p => if p.1 == uid then (uid, v) else p := by
            rw [memSet, if_pos hany]
          rw [← this]
          rw [memLookup, List.find?_cons_of_neg _ (by simp [ha])]
          exact ih
        · have hany' : ¬ (a :: as).any (fun p => p.1 == uid) = true := by
            simp only [List.any_cons, Bool.or_eq_true]
            push_neg
            exact ⟨by simp [ha], by simpa using hany⟩
          rw [memSet, if_neg hany', List.cons_append]
          have : memSet as uid v = as ++ [(uid, v)] := by
            rw [memSet, if_neg (by simpa using hany)]
          rw [← this]
          rw [memLookup, List.find?_cons_of_neg _ (by simp [ha])]
          exact ih

/-- **C7.** Idle expiry of conversation memory: when more than
`MEMORY_TIMEOUT_MS` (30 minutes) elapses between a state's `lastActivity`
and the next `getConversationState` call, the sweep removes the old state
and a fresh empty state (with `lastActivity = now`) is returned and stored;
when the state was accessed strictly within the timeout, it survives the
sweep and is returned with its history intact and `lastActivity` refreshed
to the current time. -/
theorem idle_expiry (m : Memory) (uid : String) (now : Nat) (st : ConversationState)
    (hnd : (m.map Prod.fst).Nodup) (hl : memLookup m uid = some st) :
    (now - st.lastActivity > MEMORY_TIMEOUT_MS →
      (getConversationState uid now m).1 =
        { messages := [], lastActivity := now, context := "" } ∧
      memLookup (getConversationState uid now m).2 uid =
        some { messages := [], lastActivity := now, context := "" }) ∧
    (now - st.lastActivity < MEMORY_TIMEOUT_MS →
      (getConversationState uid now m).1 = { st with lastActivity := now }) := by
  obtain ⟨q, hq, hq2⟩ : ∃ q, m.find? (fun p => p.1 == uid) = some q ∧ q.2 = st := by
    rw [memLookup] at hl
    cases hfind : m.find? (fun p => p.1 == uid) with
    | none => rw [hfind] at hl; simp at hl
    | some q => rw [hfind] at hl; exact ⟨q, rfl, by simpa using hl⟩
  have hq1 : q.1 = uid := by
    have := List.find?_some hq
    simpa using this
  constructor
  · intro hexp
    have hnone : memLookup (cleanupOldConversations now m) uid = none := by
      rw [memLookup, cleanupOldConversations]
      rw [find?_key_filter_none _ m uid q hnd hq (by simp [hq2, hexp])]
      rfl
    simp [getConversationState, hnone, memLookup_memSet_self]
  · intro hfresh
    have hsome : memLookup (cleanupOldConversations now m) uid = some st := by
      rw [memLookup, cleanupOldConversations]
      rw [find?_key_filter_some _ m uid q hnd hq (by simp [hq2]; omega)]
      simpa using hq2
    simp only [getConversationState, hsome, Option.isSome_some, if_true,
      Option.getD_some]

/-- Witness for `idle_expiry`: a state idle for `MEMORY_TIMEOUT_MS + 1`
milliseconds is replaced by a fresh empty one, while a state touched
`MEMORY_TIMEOUT_MS - 1` milliseconds ago survives with history intact and a
refreshed `lastActivity`. -/
theorem idle_expiry_witness :
    (getConversationState "u1" 1800001 memOneIdle).1 =
      { messages := [], lastActivity := 1800001, context := "" } ∧
    (getConversationState "u1" 1800000 memOneFresh).1 =
      { messages := [userTextMsg "hi"], lastActivity := 1800000, context := "" } := by
  constructor
  · exact ((idle_expiry memOneIdle "u1" 1800001
      { messages := [], lastActivity := 0, context := "" }
      (by decide) rfl).1 (by decide)).1
  · exact (idle_expiry memOneFresh "u1" 1800000
      { messages := [userTextMsg "hi"], lastActivity := 1, context := "" }
      (by decide) rfl).2 (by decide)

theorem memLookup_memDelete_self (m : Memory) (uid : String) :
    memLookup (memDelete m uid) uid = none := by
  have h := find?_key_eq_none (m.filter fun p => !(p.1 == uid)) uid (by
    intro p hp
    have := (List.mem_filter.mp hp).2
    simpa using this)
  rw [memLookup, memDelete, h]
  rfl

theorem memLookup_memDelete_of_none (m : Memory) (uid x : String)
    (h : memLookup m uid = none) : memLookup (memDelete m x) uid = none := by
  rw [memLookup, Option.map_eq_none'] at h
  rw [memLookup, memDelete, find?_key_filter_of_none _ m uid h]
  rfl

theorem sweepStep_mem (now : Nat) (acc : BotState) (p : String × ThreadSession) :
    (sweepStep now acc p).conversationMemory =
      if now - p.2.lastActivity > SESSION_TIMEOUT_MS then
        memDelete acc.conversationMemory p.2.userId
      else acc.conversationMemory := by
  rw [sweepStep]
  split <;> rfl

theorem foldl_sweep_none (now : Nat) :
    ∀ (l : Sessions) (acc : BotState) (uid : String),
      memLookup acc.conversationMemory uid = none →
      memLookup (l.foldl (sweepStep now) acc).conversationMemory uid = none := by
  intro l
  induction l with
  | nil => intro acc uid h; simpa using h
  | cons p ps ih =>
      intro acc uid h
      rw [List.foldl_cons]
      apply ih
      rw [sweepStep_mem]
      split
      · exact memLookup_memDelete_of_none _ _ _ h
      · exact h

theorem foldl_sweep_clears (now : Nat) :
    ∀ (l : Sessions) (acc : BotState) (p : String × ThreadSession),
      p ∈ l → now - p.2.lastActivity > SESSION_TIMEOUT_MS →
      memLookup (l.foldl (sweepStep now) acc).conversationMemory p.2.userId = none := by
  intro l
  induction l with
  | nil => intro _ _ h; simp at h
  | cons q qs ih =>
      intro acc p hp hexp
      rw [List.foldl_cons]
      rcases List.mem_cons.mp hp with rfl | hmem
      · apply foldl_sweep_none
        rw [sweepStep_mem, if_pos hexp]
        exact memLookup_memDelete_self _ _
      · exact ih _ p hmem hexp

/-- **C2.** One-directional session/memory coupling: ending a session on a
present key (`endSession`) removes the session user's `ConversationState`
from the memory store, the idle-expiry sweep (`cleanupExpiredSessions`)
removes the `ConversationState` of every user whose session expired, and
`clearConversation` never removes any entry from the session registry. -/
theorem session_memory_coupling :
    (∀ (st : BotState) (channelId threadTs : String) (s : ThreadSession),
      sesLookup st.activeSessions (getSessionKey channelId threadTs) = some s →
      memLookup (endSession channelId threadTs st).2.conversationMemory s.userId = none) ∧
    (∀ (st : BotState) (now : Nat) (p : String × ThreadSession),
      p ∈ st.activeSessions → now - p.2.lastActivity > SESSION_TIMEOUT_MS →
      memLookup (cleanupExpiredSessions now st).conversationMemory p.2.userId = none) ∧
    (∀ (userId : String) (st : BotState),
      (clearConversation userId st).activeSessions = st.activeSessions) := by
  refine ⟨?_, ?_, ?_⟩
  · intro st channelId threadTs s hl
    simp only [endSession, hl, clearConversation, clearConversationMem]
    exact memLookup_memDelete_self _ _
  · intro st now p hp hexp
    rw [cleanupExpiredSessions]
    exact foldl_sweep_clears now st.activeSessions st p hp hexp
  · intro userId st
    rfl

/-- Witness for `session_memory_coupling`: in a state with one session for
user `u1` and a conversation state for `u1`, both an explicit `endSession`
and an expiry sweep leave no memory entry for `u1`. -/
theorem session_memory_coupling_witness :
    memLookup (endSession "C" "T" botOneSession).2.conversationMemory "u1" = none ∧
    memLookup (cleanupExpiredSessions 1800001 botOneSession).conversationMemory "u1" = none := by
  constructor
  · exact session_memory_coupling.1 botOneSession "C" "T"
      { userId := "u1", channelId := "C", threadTs := "T", lastActivity := 0 } rfl
  · exact session_memory_coupling.2.1 botOneSession 1800001
      ("C:T", { userId := "u1", channelId := "C", threadTs := "T", lastActivity := 0 })
      (by simp [botOneSession]) (by decide)

/-- **C10.** `endSession` on an absent `(channel, thread)` key returns
`false` and leaves both stores exactly as they were: no session entry is
added or removed and no user's `ConversationState` is cleared. -/
theorem end_session_absent_noop (st : BotState) (channelId threadTs : String)
    (h : sesLookup st.activeSessions (getSessionKey channelId threadTs) = none) :
    endSession channelId threadTs st = (false, st) := by
  simp [endSession, h]

/-- Witness for `end_session_absent_noop`: ending a session for thread
`"C:X"` while only `"C:T"` is registered returns `false` and changes
nothing. -/
theorem end_session_absent_noop_witness :
    endSession "C" "X" botOneSession = (false, botOneSession) :=
  end_session_absent_noop botOneSession "C" "X" rfl

theorem mem_appendAndTrim {l : List Message} {m x : Message}
    (hx : x ∈ appendAndTrim l m) : x ∈ l ∨ x = m := by
  rw [appendAndTrim, trimHistory_eq_drop] at hx
  have hx' := List.mem_of_mem_drop hx
  rcases List.mem_append.mp hx' with h | h
  · exact Or.inl h
  · exact Or.inr (by simpa using h)

/-- **C5.** Loop termination on a final answer: when the model's first
response has a stop reason other than `tool_use`, the turn completes with
exactly one model call and zero tool executions, and the returned text is
the newline-joined concatenation of the response's text segments — or the
fixed fallback string when that concatenation is empty. -/
theorem single_model_call_on_final_answer (svc : MailboxService)
    (history : List Message) (userRequest : String) (r : Response)
    (rest : List Response) (h : r.stop_reason ≠ "tool_use") :
    (processTurn svc history userRequest (r :: rest)).map TurnResult.modelCalls = some 1 ∧
    (processTurn svc history userRequest (r :: rest)).map TurnResult.toolInvocations = some 0 ∧
    (processTurn svc history userRequest (r :: rest)).map TurnResult.finalText =
      some (if jsJoin "\n" (r.content.filterMap blockText?) = "" then fallbackText
            else jsJoin "\n" (r.content.filterMap blockText?)) := by
  have hrl : runLoop svc (appendAndTrim history (userTextMsg userRequest)) r rest 1 0 =
      some ((if jsJoin "\n" (r.content.filterMap blockText?) = "" then fallbackText
             else jsJoin "\n" (r.content.filterMap blockText?)), 1, 0) := by
    rw [runLoop, if_neg h]
  simp only [processTurn, hrl, Option.map_some]
  exact ⟨rfl, rfl, rfl⟩

/-- Witness for `single_model_call_on_final_answer` at a concrete text-only
response. -/
theorem single_model_call_on_final_answer_witness :
    (processTurn svcAllOk [] "hello" [respFinal]).map TurnResult.modelCalls = some 1 ∧
    (processTurn svcAllOk [] "hello" [respFinal]).map TurnResult.toolInvocations = some 0 ∧
    (processTurn svcAllOk [] "hello" [respFinal]).map TurnResult.finalText =
      some (if jsJoin "\n" (respFinal.content.filterMap blockText?) = "" then fallbackText
            else jsJoin "\n" (respFinal.content.filterMap blockText?)) :=
  single_model_call_on_final_answer svcAllOk [] "hello" respFinal [] (by decide)

/-- **C6.** Distilled persistence: every completed turn of
`processNaturalLanguageRequest`, regardless of how many tool-use rounds
occurred, updates the persisted history exactly by appending the plain-text
user entry and then the plain-text assistant entry holding the final
distilled text (each append followed by the trim); consequently every entry
of the new history is either an old entry or one of those two text entries —
no `tool_use`/`tool_result` entry is ever persisted (those live only in the
per-turn working list). -/
theorem distilled_persistence (svc : MailboxService) (history : List Message)
    (userRequest : String) (responses : List Response) (res : TurnResult)
    (h : processTurn svc history userRequest responses = some res) :
    res.newHistory =
      appendAndTrim (appendAndTrim history (userTextMsg userRequest))
        (assistantTextMsg res.finalText) ∧
    ∀ m ∈ res.newHistory,
      m ∈ history ∨ m = userTextMsg userRequest ∨ m = assistantTextMsg res.finalText := by
  cases responses with
  | nil => simp [processTurn] at h
  | cons r rest =>
      simp only [processTurn] at h
      cases hrl : runLoop svc (appendAndTrim history (userTextMsg userRequest)) r rest 1 0 with
      | none => rw [hrl] at h; simp at h
      | some v =>
          obtain ⟨f, c, t⟩ := v
          rw [hrl] at h
          have he := Option.some.inj h
          subst he
          refine ⟨rfl, ?_⟩
          intro m hm
          rcases mem_appendAndTrim hm with h1 | h1
          · rcases mem_appendAndTrim h1 with h2 | h2
            · exact Or.inl h2
            · exact Or.inr (Or.inl h2)
          · exact Or.inr (Or.inr h1)

/-- Witness for `distilled_persistence`: a turn with two tool-use rounds
(two tool executions, three model calls) persists exactly the user entry and
the final assistant text entry. -/
theorem distilled_persistence_witness :
    processTurn svcAllOk [] "show me unread emails" [respToolUse1, respToolUse2, respFinal] =
      some { finalText := "Done.",
             newHistory := [userTextMsg "show me unread emails", assistantTextMsg "Done."],
             modelCalls := 3, toolInvocations := 2 } ∧
    [userTextMsg "show me unread emails", assistantTextMsg "Done."] =
      appendAndTrim (appendAndTrim [] (userTextMsg "show me unread emails"))
        (assistantTextMsg "Done.") := by
  refine ⟨rfl, ?_⟩
  exact (distilled_persistence svcAllOk [] "show me unread emails"
    [respToolUse1, respToolUse2, respFinal]
    { finalText := "Done.",
      newHistory := [userTextMsg "show me unread emails", assistantTextMsg "Done."],
      modelCalls := 3, toolInvocations := 2 }
    (by rfl)).1

/-- **C3 (counterexample).** The claim says a negative result-count argument
is normalized into `[1, 10]` before the Mailbox Service call; in fact
`Math.min((x) || 5, 10)` has no lower clamp: for `maxResults = -3` the value
handed to the Mailbox Service by `executeTool` is `-3`, which is below 1. -/
theorem count_clamping_cex :
    (executeTool "search_emails"
        { query := some "q", maxResults := some (-3) } svcAllOk).2 =
      [SvcCall.searchEmails (some "q") (-3)] ∧ ¬ (1 ≤ (-3 : Int)) :=
  ⟨rfl, by decide⟩

/-- **C3 (amended).** Count normalization in `executeTool` for
`search_emails` (`maxResults`) and `list_recent_emails` (`count`): the value
passed to the Mailbox Service is `min ((x || 5)) 10`; an absent value or 0
defaults to 5, every nonnegative value is normalized into `[1, 10]` (values
above 10 are clamped to 10), but a negative value is passed through
unchanged — there is no lower clamp. -/
theorem count_clamping_amended (input : ToolInput) (svc : MailboxService) :
    (executeTool "search_emails" input svc).2 =
      [SvcCall.searchEmails input.query (min (jsOrDefault input.maxResults 5) 10)] ∧
    (executeTool "list_recent_emails" input svc).2 =
      [SvcCall.listEmails (min (jsOrDefault input.count 5) 10)] ∧
    min (jsOrDefault (none : Option Int) 5) 10 = 5 ∧
    min (jsOrDefault (some (0 : Int)) 5) 10 = 5 ∧
    (∀ v : Int, 0 ≤ v →
      1 ≤ min (jsOrDefault (some v) 5) 10 ∧ min (jsOrDefault (some v) 5) 10 ≤ 10) ∧
    (∀ v : Int, v < 0 → min (jsOrDefault (some v) 5) 10 = v) := by
  refine ⟨rfl, rfl, rfl, rfl, ?_, ?_⟩
  · intro v hv
    by_cases h0 : v = 0
    · simp [jsOrDefault, h0]
    · simp only [jsOrDefault, if_neg h0]
      omega
  · intro v hv
    have h0 : ¬ v = 0 := by omega
    simp only [jsOrDefault, if_neg h0]
    omega

/-- Witness for `count_clamping_amended`: count 0 becomes 5, count 12 lands
in `[1, 10]`, count -7 passes through as -7. -/
theorem count_clamping_amended_witness :
    (executeTool "search_emails"
        ({ query := some "q", maxResults := some 0 } : ToolInput) svcAllOk).2 =
      [SvcCall.searchEmails (some "q") (min (jsOrDefault (some 0) 5) 10)] ∧
    (1 ≤ min (jsOrDefault (some (12 : Int)) 5) 10 ∧
      min (jsOrDefault (some (12 : Int)) 5) 10 ≤ 10) ∧
    min (jsOrDefault (some (-7 : Int)) 5) 10 = -7 := by
  have h := count_clamping_amended
    ({ query := some "q", maxResults := some 0 } : ToolInput) svcAllOk
  exact ⟨h.1, h.2.2.2.2.1 12 (by decide), h.2.2.2.2.2 (-7) (by decide)⟩

/-- **C8.** `formatEmailListForSlack` template: the empty list renders
exactly as `"No emails found."`; a non-empty list renders one block per
email in order — a `*N. subject*` line (N starting at 1) followed by the
three indented From/Date/ID lines — with consecutive blocks joined by
`"\n\n"`, i.e. separated by exactly one blank line. -/
theorem format_list_template (emails : List EmailMessage) :
    formatEmailListForSlack emails =
      if emails.isEmpty then "No emails found."
      else jsJoin "\n\n" (((List.range emails.length).zip emails).map fun pe =>
        "*" ++ toString (pe.1 + 1) ++ ". " ++ pe.2.subject ++ "*" ++ "\n" ++
        "   From: " ++ pe.2.«from» ++ "\n" ++
        "   Date: " ++ pe.2.date ++ "\n" ++
        "   ID: `" ++ pe.2.id ++ "`") := by
  cases emails with
  | nil => rfl
  | cons a as =>
      rw [formatEmailListForSlack]
      rw [if_neg (show ¬ ((a :: as).length = 0) by simp)]
      rw [if_neg (show ¬ ((a :: as).isEmpty = true) by simp)]
      rw [List.mapIdx_eq_enum_map, List.enum_eq_zip_range]
      refine congrArg (jsJoin "\n\n") ?_
      apply List.map_congr_left
      intro pe _
      simp [Function.uncurry, jsJoin, String.append_assoc, -String.reduceAppend]

/-- **C9 (counterexample).** The claim says that whenever a body is requested
and present it is rendered (unchanged when at most 500 characters); but the
source tests JS truthiness, so a present-but-empty body (`body = some ""`,
length 0 ≤ 500) falls through to the snippet line instead of being rendered
unchanged. -/
theorem format_email_cex :
    formatEmailForSlack emptyBodyEmail true =
      "*Subject:* S\n*From:* F\n*Date:* D\n*ID:* `id9`\n\n_snip_" ∧
    formatEmailForSlack emptyBodyEmail true ≠
      "*Subject:* S\n*From:* F\n*Date:* D\n*ID:* `id9`\n\n>>> " :=
  ⟨rfl, by decide⟩

/-- **C9 (amended).** `formatEmailForSlack` renders the four labeled
Subject/From/Date/ID lines followed by: when a body is requested and present
*and non-empty*, the body hard-truncated at 500 characters with a `"..."`
suffix exactly when the original exceeds 500 characters (non-empty bodies of
length at most 500 are rendered unchanged); otherwise — body not requested,
absent, or empty — the snippet line. -/
theorem format_email_template (email : EmailMessage) (includeBody : Bool) :
    formatEmailForSlack email includeBody =
      "*Subject:* " ++ email.subject ++ "\n" ++
      "*From:* " ++ email.«from» ++ "\n" ++
      "*Date:* " ++ email.date ++ "\n" ++
      "*ID:* `" ++ email.id ++ "`" ++ "\n" ++
      (match includeBody, email.body with
       | true, some b =>
           if b ≠ "" then
             "\n>>> " ++ (if b.length > 500 then b.take 500 ++ "..." else b)
           else "\n_" ++ email.snippet ++ "_"
       | _, _ => "\n_" ++ email.snippet ++ "_") := by
  cases includeBody with
  | false =>
      cases hb : email.body <;>
        simp [formatEmailForSlack, hb, jsJoin, String.append_assoc, -String.reduceAppend]
  | true =>
      cases hb : email.body with
      | none =>
          simp [formatEmailForSlack, hb, jsJoin, String.append_assoc, -String.reduceAppend]
      | some b =>
          by_cases hbe : b = ""
          · simp [formatEmailForSlack, hb, hbe, jsJoin, String.append_assoc,
              -String.reduceAppend]
          · simp [formatEmailForSlack, hb, hbe, jsJoin, String.append_assoc,
              -String.reduceAppend]

theorem isOk_ite_ok (c : Prop) [Decidable c] (a b : String) :
    (if c then (Except.ok a : Except String String) else Except.ok b).isOk = true := by
  split <;> rfl

theorem true_eq_false_iff_neg {P : Prop} (h : ¬ P) : ((true = false) ↔ P) :=
  ⟨fun hc => absurd hc (by simp), fun hp => absurd hp h⟩

/-- The throw condition of the amended dispatcher claim: the two batch cases
dereference `messageIds.length` in their success branch, so they raise
exactly when `messageIds` is absent and the batch call reports success. -/
def dispatcherThrows (name : String) (input : ToolInput) (svc : MailboxService) : Prop :=
  input.messageIds = none ∧
    ((name = "batch_star_emails" ∧
        svc.batchModifyEmails none (some [some "STARRED"]) none = true) ∨
     (name = "batch_apply_label" ∧
        svc.batchModifyEmails none (some [input.labelId]) none = true))

theorem dispatcher_ok_case (name : String) (input : ToolInput) (svc : MailboxService)
    (hok : (executeTool name input svc).1.isOk = true)
    (hb1 : name ≠ "batch_star_emails") (hb2 : name ≠ "batch_apply_label")
    (hmem : name ∈ knownToolNames) :
    ((executeTool name input svc).1.isOk = false ↔ dispatcherThrows name input svc) ∧
    (name ∉ knownToolNames →
      (executeTool name input svc).1 = Except.ok ("Unknown tool: " ++ name)) := by
  constructor
  · rw [hok]
    exact true_eq_false_iff_neg (by
      rintro ⟨_, ⟨hn, _⟩ | ⟨hn, _⟩⟩
      · exact hb1 hn
      · exact hb2 hn)
  · intro hn
    exact absurd hmem hn

/-- **C4 (counterexample).** The claim says `executeTool` always returns a
string and never raises; but `batch_star_emails` with an absent `messageIds`
and a succeeding batch call dereferences `undefined.length` and raises a
`TypeError` past the dispatcher boundary. -/
theorem dispatcher_throws_cex :
    (executeTool "batch_star_emails" ({} : ToolInput) svcAllOk).1 =
      Except.error typeErrorUndefinedLength ∧
    (executeTool "batch_star_emails" ({} : ToolInput) svcAllOk).1.isOk = false :=
  ⟨rfl, rfl⟩

/-- **C4 (amended).** Dispatcher totality, amended: for every tool name
(known or unknown) and every argument mapping, with Mailbox Service calls
modeled as returning their success/failure values, `executeTool` returns a
string — unknown names yield the `"Unknown tool: <name>"` diagnostic string
and every domain failure becomes a failure string fed back to the model —
EXCEPT that the two batch tools (`batch_star_emails`, `batch_apply_label`)
raise a JS `TypeError` precisely when `messageIds` is absent and the batch
service call reports success (their success branch reads
`messageIds.length`). -/
theorem dispatcher_total_amended (name : String) (input : ToolInput) (svc : MailboxService) :
    ((executeTool name input svc).1.isOk = false ↔ dispatcherThrows name input svc) ∧
    (name ∉ knownToolNames →
      (executeTool name input svc).1 = Except.ok ("Unknown tool: " ++ name)) := by
  by_cases h1 : name = "search_emails"
  · subst h1
    exact dispatcher_ok_case _ input svc (by simp [executeTool, isOk_ite_ok])
      (by decide) (by decide) (by decide)
  by_cases h2 : name = "list_recent_emails"
  · subst h2
    exact dispatcher_ok_case _ input svc (by simp [executeTool, h1, isOk_ite_ok])
      (by decide) (by decide) (by decide)
  by_cases h3 : name = "get_email_details"
  · subst h3
    refine dispatcher_ok_case _ input svc ?_ (by decide) (by decide) (by decide)
    cases hge : svc.getEmail input.messageId <;>
      simp [executeTool, h1, h2, hge, Except.isOk, Except.toBool]
  by_cases h4 : name = "send_email"
  · subst h4
    exact dispatcher_ok_case _ input svc (by simp [executeTool, h1, h2, h3, isOk_ite_ok])
      (by decide) (by decide) (by decide)
  by_cases h5 : name = "mark_as_read"
  · subst h5
    exact dispatcher_ok_case _ input svc
      (by simp [executeTool, h1, h2, h3, h4, isOk_ite_ok])
      (by decide) (by decide) (by decide)
  by_cases h6 : name = "trash_email"
  · subst h6
    exact dispatcher_ok_case _ input svc
      (by simp [executeTool, h1, h2, h3, h4, h5, isOk_ite_ok])
      (by decide) (by decide) (by decide)
  by_cases h7 : name = "create_label"
  · subst h7
    refine dispatcher_ok_case _ input svc ?_ (by decide) (by decide) (by decide)
    cases hge : svc.createLabel input.name <;>
      simp [executeTool, h1, h2, h3, h4, h5, h6, hge, Except.isOk, Except.toBool]
  by_cases h8 : name = "delete_label"
  · subst h8
    exact dispatcher_ok_case _ input svc
      (by simp [executeTool, h1, h2, h3, h4, h5, h6, h7, isOk_ite_ok])
      (by decide) (by decide) (by decide)
  by_cases h9 : name = "get_labels"
  · subst h9
    exact dispatcher_ok_case _ input svc
      (by simp [executeTool, h1, h2, h3, h4, h5, h6, h7, h8, isOk_ite_ok])
      (by decide) (by decide) (by decide)
  by_cases h10 : name = "star_email"
  · subst h10
    exact dispatcher_ok_case _ input svc
      (by simp [executeTool, h1, h2, h3, h4, h5, h6, h7, h8, h9, isOk_ite_ok])
      (by decide) (by decide) (by decide)
  by_cases h11 : name = "unstar_email"
  · subst h11
    exact dispatcher_ok_case _ input svc
      (by simp [executeTool, h1, h2, h3, h4, h5, h6, h7, h8, h9, h10, isOk_ite_ok])
      (by decide) (by decide) (by decide)
  by_cases h12 : name = "archive_email"
  · subst h12
    exact dispatcher_ok_case _ input svc
      (by simp [executeTool, h1, h2, h3, h4, h5, h6, h7, h8, h9, h10, h11, isOk_ite_ok])
      (by decide) (by decide) (by decide)
  by_cases h13 : name = "batch_star_emails"
  · subst h13
    refine ⟨?_, fun hn => absurd (by decide) hn⟩
    cases hmi : input.messageIds with
    | none =>
        cases hb : svc.batchModifyEmails none (some [some "STARRED"]) none with
        | false =>
            have hok : (executeTool "batch_star_emails" input svc).1.isOk = true := by
              simp [executeTool, h1, h2, h3, h4, h5, h6, h7, h8, h9, h10, h11, h12,
                hmi, hb, Except.isOk, Except.toBool]
            rw [hok]
            exact true_eq_false_iff_neg (by
              rintro ⟨_, ⟨_, hb'⟩ | ⟨hn, _⟩⟩
              · rw [hb] at hb'; exact absurd hb' (by simp)
              · exact absurd hn (by decide))
        | true =>
            have hko : (executeTool "batch_star_emails" input svc).1.isOk = false := by
              simp [executeTool, h1, h2, h3, h4, h5, h6, h7, h8, h9, h10, h11, h12,
                hmi, hb, Except.isOk, Except.toBool]
            rw [hko]
            constructor
            · intro _
              exact ⟨hmi, Or.inl ⟨rfl, hb⟩⟩
            · intro _
              rfl
    | some l =>
        have hok : (executeTool "batch_star_emails" input svc).1.isOk = true := by
          simp [executeTool, h1, h2, h3, h4, h5, h6, h7, h8, h9, h10, h11, h12,
            hmi, isOk_ite_ok]
        rw [hok]
        exact true_eq_false_iff_neg (by
          rintro ⟨hmi', _⟩
          rw [hmi] at hmi'
          exact absurd hmi' (by simp))
  by_cases h14 : name = "batch_apply_label"
  · subst h14
    refine ⟨?_, fun hn => absurd (by decide) hn⟩
    cases hmi : input.messageIds with
    | none =>
        cases hb : svc.batchModifyEmails none (some [input.labelId]) none with
        | false =>
            have hok : (executeTool "batch_apply_label" input svc).1.isOk = true := by
              simp [executeTool, h1, h2, h3, h4, h5, h6, h7, h8, h9, h10, h11, h12, h13,
                hmi, hb, Except.isOk, Except.toBool]
            rw [hok]
            exact true_eq_false_iff_neg (by
              rintro ⟨_, ⟨hn, _⟩ | ⟨_, hb'⟩⟩
              · exact absurd hn (by decide)
              · rw [hb] at hb'; exact absurd hb' (by simp))
        | true =>
            have hko : (executeTool "batch_apply_label" input svc).1.isOk = false := by
              simp [executeTool, h1, h2, h3, h4, h5, h6, h7, h8, h9, h10, h11, h12, h13,
                hmi, hb, Except.isOk, Except.toBool]
            rw [hko]
            constructor
            · intro _
              exact ⟨hmi, Or.inr ⟨rfl, hb⟩⟩
            · intro _
              rfl
    | some l =>
        have hok : (executeTool "batch_apply_label" input svc).1.isOk = true := by
          simp [executeTool, h1, h2, h3, h4, h5, h6, h7, h8, h9, h10, h11, h12, h13,
            hmi, isOk_ite_ok]
        rw [hok]
        exact true_eq_false_iff_neg (by
          rintro ⟨hmi', _⟩
          rw [hmi] at hmi'
          exact absurd hmi' (by simp))
  by_cases h15 : name = "find_marketing_emails"
  · subst h15
    exact dispatcher_ok_case _ input svc
      (by simp [executeTool, h1, h2, h3, h4, h5, h6, h7, h8, h9, h10, h11, h12, h13, h14,
        isOk_ite_ok])
      (by decide) (by decide) (by decide)
  by_cases h16 : name = "get_unsubscribe_info"
  · subst h16
    refine dispatcher_ok_case _ input svc ?_ (by decide) (by decide) (by decide)
    cases hge : svc.getUnsubscribeInfo input.messageId <;>
      simp [executeTool, h1, h2, h3, h4, h5, h6, h7, h8, h9, h10, h11, h12, h13, h14, h15,
        hge, Except.isOk, Except.toBool]
  constructor
  · have hok : (executeTool name input svc).1 = Except.ok ("Unknown tool: " ++ name) := by
      simp [executeTool, h1, h2, h3, h4, h5, h6, h7, h8, h9, h10, h11, h12, h13, h14, h15, h16]
    rw [hok]
    exact true_eq_false_iff_neg (by
      rintro ⟨_, ⟨hn, _⟩ | ⟨hn, _⟩⟩
      · exact h13 hn
      · exact h14 hn)
  · intro _
    simp [executeTool, h1, h2, h3, h4, h5, h6, h7, h8, h9, h10, h11, h12, h13, h14, h15, h16]

/-- Witness for `dispatcher_total_amended`: an unknown tool name yields the
diagnostic string (never an exception), and the throw-condition biconditional
holds at that input. -/
theorem dispatcher_total_amended_witness :
    ((executeTool "frobnicate" ({} : ToolInput) svcAllOk).1.isOk = false ↔
      dispatcherThrows "frobnicate" ({} : ToolInput) svcAllOk) ∧
    (executeTool "frobnicate" ({} : ToolInput) svcAllOk).1 =
      Except.ok ("Unknown tool: " ++ "frobnicate") := by
  have h := dispatcher_total_amended "frobnicate" ({} : ToolInput) svcAllOk
  exact ⟨h.1, h.2 (by decide)⟩

end GmailBot
